import Mathlib

/-!
Shallow embedding of `src/secret_tests/driver.py` from the repository
`learnlyticaassessments/employee_performance_eval`.

The driver is a grading harness: it loads a student submission exposing six
numeric operations, runs a randomized pre-flight check
(`run_randomized_checks`), and then, per visible test case, runs a
trivial-stub check, a hardcode detector (`detect_hardcoded`), consults the
randomized failure set, and only then executes the submission and compares
its output to the expected value (`test_student_code`).

Modelling decisions:
* Python values that the driver manipulates are flat scalars and flat
  containers of scalars (ints, floats, bools, strings, numpy arrays, lists,
  tuples, dicts); `PyVal` mirrors exactly that.  Python floats are modelled
  as rationals (every literal in the driver is an exact decimal).
* Python `bool` is a subclass of `int`, so `isinstance(expected, (int,
  float, str))` is true for booleans; the scalar branch of the detector
  therefore also covers booleans, as in the source.
* A submission is a map from operation name to an optional operation
  (absence models `getattr` raising `AttributeError`); an operation either
  returns a value or raises, modelled with `Except String PyVal`.
* Exceptions are modelled by their message strings; `str.lower()` is
  modelled on ASCII letters, which covers every string the driver handles.
* Python `round(x, n)` (and `np.round`) are modelled as half-up decimal
  rounding on rationals; every concrete value this development evaluates it
  on is not a tie, where the model agrees with Python.
-/

namespace Driver

/-- A Python scalar as used by the driver: int, float, str or bool. -/
inductive Scalar where
  | int (n : Int)
  | float (q : Rat)
  | str (s : String)
  | bool (b : Bool)
deriving DecidableEq, Repr

/-- A Python value as used by the driver: a scalar or a flat container of
scalars (numpy array, list, tuple, dict).  Every value the driver builds or
compares is of this shape. -/
inductive PyVal where
  | scalar (v : Scalar)
  | ndarray (l : List Scalar)
  | list (l : List Scalar)
  | tuple (l : List Scalar)
  | dict (l : List (Scalar × Scalar))
deriving DecidableEq, Repr

/-!
Rational arithmetic helpers.  The ambient `Rat` operations of the library
are declared irreducible, which would block evaluation inside proofs, so
the driver model uses these equivalent definitions built directly on
`mkRat` (all results are in normal form, hence structural equality is
value equality).
-/

/-- The rational value of an integer. -/
def intToRat (n : Int) : Rat := mkRat n 1

/-- The Python decimal literal `m × 10⁻ᵏ` (e.g. `dec 866 1` is `86.6`),
exact as a rational. -/
def dec (m : Int) (k : Nat) : Rat := mkRat m (Nat.pow 10 k)

/-- Rational multiplication. -/
def rMul (a b : Rat) : Rat := mkRat (a.num * b.num) (a.den * b.den)

/-- Rational addition. -/
def rAdd (a b : Rat) : Rat := mkRat (a.num * b.den + b.num * a.den) (a.den * b.den)

/-- Rational division (the divisors used by the model are nonzero). -/
def rDiv (a b : Rat) : Rat :=
  mkRat ((if b.num < 0 then -a.num else a.num) * b.den) (a.den * b.num.natAbs)

/-- Rational strict order as a Boolean. -/
def rLt (a b : Rat) : Bool := Rat.blt a b

/-- Rational minimum (Python `min` / `np.clip` upper bound). -/
def rMin (a b : Rat) : Rat := if rLt a b then a else b

/-- ASCII lower-casing of one character, modelling Python `str.lower` on the
ASCII range (all strings in the driver are ASCII). -/
def lowerAscii (c : Char) : Char :=
  if 65 ≤ c.toNat ∧ c.toNat ≤ 90 then Char.ofNat (c.toNat + 32) else c

/-- Character-level normalization underlying `detect_hardcoded`: drop
spaces and newlines, then lower-case. -/
def normChars (l : List Char) : List Char :=
  (l.filter (fun c => !(c == ' ' || c == '\n'))).map lowerAscii

/-- `src.replace(" ", "").replace("\n", "").lower()` from
`detect_hardcoded`. -/
def normalizeSrc (s : String) : String :=
  String.mk (normChars s.data)

/-- Lower-casing of a whole string (`.lower()` applied to the scalar
pattern in `detect_hardcoded`). -/
def lowerStr (s : String) : String :=
  String.mk (s.data.map lowerAscii)

/-- Does the character list `s` start with the pattern `pat`? -/
def begMatch : List Char → List Char → Bool
  | [], _ => true
  | _ :: _, [] => false
  | a :: as, b :: bs => a == b && begMatch as bs

/-- Substring occurrence on character lists (Python `pat in s`). -/
def occursIn (pat : List Char) : List Char → Bool
  | [] => pat.isEmpty
  | c :: t => begMatch pat (c :: t) || occursIn pat t

/-- Python's `in` operator on strings: `pat` occurs contiguously in `s`. -/
def pyIn (pat s : String) : Bool :=
  occursIn pat.data s.data

/-- A character Python's `str.strip()` removes. -/
def isPySpace (c : Char) : Bool :=
  c == ' ' || c == '\n' || c == '\t' || c == '\r'

/-- Python `s.strip()`: drop leading and trailing whitespace. -/
def pyStrip (s : String) : String :=
  String.mk (((s.data.dropWhile isPySpace).reverse.dropWhile isPySpace).reverse)

/-- Number of decimal digits needed to write `q` exactly (with fuel); 0 when
`q` is an integer. -/
def decExp : Nat → Rat → Nat
  | 0, _ => 0
  | fuel + 1, q => if q.den = 1 then 0 else decExp fuel (rMul q (intToRat 10)) + 1

/-- Left-pad a digit string with zeros to width `k`. -/
def padZeros (k : Nat) (s : String) : String :=
  String.mk (List.replicate (k - s.length) '0') ++ s

/-- Python `str`/`repr` of a float, for floats that are exact decimals (all
floats in the driver are): always at least one digit after the point, e.g.
`85.0`, `86.6`. -/
def ratToDecimal (q : Rat) : String :=
  let k := max 1 (decExp 30 q)
  let n := (rMul q (intToRat (Nat.pow 10 k))).num
  let sign := if n < 0 then "-" else ""
  let m := n.natAbs
  sign ++ toString (m / Nat.pow 10 k) ++ "." ++ padZeros k (toString (m % Nat.pow 10 k))

/-- Python `str(v)` for a scalar. -/
def scalarStr : Scalar → String
  | .int n => toString n
  | .float q => ratToDecimal q
  | .str s => s
  | .bool b => if b then "True" else "False"

/-- Python `repr(v)` for a scalar (strings are quoted, the rest agrees with
`str`). -/
def scalarRepr : Scalar → String
  | .str s => "\x27" ++ s ++ "\x27"
  | v => scalarStr v

/--
`detect_hardcoded(src, expected_output)` from the driver:
normalize the source by removing spaces and newlines and lower-casing, then

* numpy array: hardcoded iff every element's `str` occurs in the
  normalized source (the source calls `.tolist()` first, which does not
  change the elements' `str` forms for the scalars used here);
* list/tuple: same elementwise test;
* dict: every key's and value's `str` occurs;
* scalar (int/float/str — and bool, a Python subclass of int): the pattern
  `("return" + repr(expected)).lower()` occurs in the normalized source.

The source wraps the scan in `try/except` returning `False` on internal
errors; the model is total so that branch is unreachable here.
-/
def detect_hardcoded (src : String) (expected : PyVal) : Bool :=
  let flat := normalizeSrc src
  match expected with
  | .ndarray vs => vs.all (fun v => pyIn (scalarStr v) flat)
  | .list vs => vs.all (fun v => pyIn (scalarStr v) flat)
  | .tuple vs => vs.all (fun v => pyIn (scalarStr v) flat)
  | .dict kvs => kvs.all (fun kv => pyIn (scalarStr kv.1) flat && pyIn (scalarStr kv.2) flat)
  | .scalar v => pyIn (lowerStr ("return" ++ scalarRepr v)) flat

/-- Numeric view of a scalar (Python numeric cross-type equality: `bool` is
an int, `85 == 85.0` is true). -/
def asRat : Scalar → Option Rat
  | .int n => some (intToRat n)
  | .float q => some q
  | .bool b => some (if b then intToRat 1 else intToRat 0)
  | .str _ => none

/-- Python `==` on the scalars the driver compares: numeric values compare
by value across int/float/bool, strings compare as strings, a string never
equals a number. -/
def scalarEq (a b : Scalar) : Bool :=
  match asRat a, asRat b with
  | some x, some y => x == y
  | _, _ =>
    match a, b with
    | .str s, .str t => s == t
    | _, _ => false

/-- The element list of an array-like value (`np.array_equal` and `zip`
accept ndarrays, lists and tuples alike). -/
def elemsOf : PyVal → Option (List Scalar)
  | .ndarray l => some l
  | .list l => some l
  | .tuple l => some l
  | _ => none

/-- `np.array_equal(result, expected_elems)`: coerce the result to an
array; equal iff same length and elementwise `==`.  A non-array-like result
compares unequal (numpy produces a 0-d array, never equal to a vector);
`array_equal` does not raise. -/
def arrayEqual (result : PyVal) (expected : List Scalar) : Bool :=
  match elemsOf result with
  | some rs => rs.length == expected.length && (rs.zip expected).all (fun p => scalarEq p.1 p.2)
  | none => false

/-- Half-up rounding to `d` decimal places on rationals, modelling Python
`round(x, d)` / `np.round(x, d)` away from ties (no value this development
rounds is a tie). -/
def pyRound (d : Nat) (q : Rat) : Rat :=
  mkRat (Rat.floor (rAdd (rMul q (intToRat (Nat.pow 10 d))) (dec 5 1))) (Nat.pow 10 d)

/-- `all(round(a, d) == round(b, d) for a, b in zip(rs, es))`: `zip`
truncates to the shorter list, `all` short-circuits at the first mismatch,
and `round` raises `TypeError` on a non-numeric element. -/
def roundPairs (d : Nat) : List (Scalar × Scalar) → Except String Bool
  | [] => .ok true
  | (a, b) :: t =>
    match asRat a, asRat b with
    | some x, some y => if pyRound d x = pyRound d y then roundPairs d t else .ok false
    | _, _ => .error "TypeError: type str does not define __round__ method"

/-- Python truthiness, as used by `if not analyzer.validate_scores(arr)`.
A multi-element numpy array raises `ValueError` (ambiguous truth value). -/
def truthy : PyVal → Except String Bool
  | .scalar (.bool b) => .ok b
  | .scalar (.int n) => .ok (!(n == 0))
  | .scalar (.float q) => .ok (!(q == intToRat 0))
  | .scalar (.str s) => .ok (!s.isEmpty)
  | .list l => .ok (!l.isEmpty)
  | .tuple l => .ok (!l.isEmpty)
  | .dict l => .ok (!l.isEmpty)
  | .ndarray [x] =>
    .ok (match asRat x with | some q => !(q == intToRat 0) | none => !(scalarStr x).isEmpty)
  | .ndarray _ => .error "ValueError: truth value of an array is ambiguous"

/-- All-numeric view of a result (`np.round(result, 1)` raises on anything
non-numeric; a numeric scalar becomes a 0-d array, modelled as a singleton
for broadcasting). -/
def asNumList : PyVal → Option (List Rat)
  | .scalar v => (asRat v).map (fun q => [q])
  | .ndarray l => l.mapM asRat
  | .list l => l.mapM asRat
  | .tuple l => l.mapM asRat
  | .dict _ => none

/-- `np.allclose(a, b)` after both sides were rounded to 1 decimal: equal
shapes compare elementwise, a singleton broadcasts, other shape mismatches
raise. -/
def allClose (a b : List Rat) : Except String Bool :=
  if a.length = b.length then .ok ((a.zip b).all (fun p => p.1 == p.2))
  else if a.length = 1 then .ok (b.all (fun x => some x == a.head?))
  else if b.length = 1 then .ok (a.all (fun x => some x == b.head?))
  else .error "ValueError: operands could not be broadcast together"

/--
A loaded submission: `ops` maps an operation name to its implementation
(`none` models `getattr` raising `AttributeError`; a call either returns a
`PyVal` or raises, carried as `Except`), `src` is `inspect.getsource` of
the operation.  Inputs are integer lists — every input the driver passes
(visible and randomized) is a list/array of Python ints.  Instantiating
`Analyzer()` is modelled as pure (the driver re-instantiates per case).
-/
structure Submission where
  ops : String → Option (List Int → Except String PyVal)
  src : String → String

/-- One block of `run_randomized_checks`: call the operation inside
`try/except` (`getattr` failure or a raise records "Exception occurred")
and test the result; a clean call failing the test records the given
failure. -/
def rcRun (A : Submission) (name : String) (input : List Int)
    (check : PyVal → Except String Bool) : Option (String × String) :=
  match A.ops name with
  | none => some (name, "Exception occurred")
  | some f =>
    match f input with
    | .error _ => some (name, "Exception occurred")
    | .ok r =>
      match check r with
      | .error _ => some (name, "Exception occurred")
      | .ok true => none
      | .ok false => some (name, "Randomized logic failed")

/-- The expected output of the `apply_bonus` randomized check, exactly as
the driver computes it:
`np.round(np.clip(arr * np.where(arr > 85, 1.05, 1), None, 100), 1)`. -/
def rcApplyExpected : List Rat :=
  ([84, 90, 95] : List Int).map
    (fun a => pyRound 1 (rMin (if 85 < a then rMul (intToRat a) (dec 105 2) else intToRat a)
      (intToRat 100)))

/--
`run_randomized_checks(analyzer)` from the driver.  `rand` is the list
drawn by `[random.randint(60, 100) for _ in range(6)]`; the other five
checks use the fixed inputs of the source.  Returns the failure dict as an
ordered association list.

* `create_performance_array`: result must satisfy `isinstance(result,
  np.ndarray)` (a plain list fails) and `np.array_equal(result, np.array(rand))`.
* `validate_scores` on `[60, 75, 100]`: the result must be truthy.
* `compute_performance_summary` on `[70, 80, 90]`: must be a tuple whose
  `zip` against `(240, 80.0, 90)` agrees after rounding to 1 decimal.
* `apply_bonus` on `[84, 90, 95]`: `np.round(result, 1)` must be allclose
  to the reference vector.
* `categorize_employees` on `[91, 85, 60]` and
  `format_scores_with_grades` on `[91, 85, 73, 60]`: `np.array_equal`
  against the reference string arrays.
-/
def run_randomized_checks (A : Submission) (rand : List Int) : List (String × String) :=
  (([
    rcRun A "create_performance_array" rand
      (fun r => .ok (match r with
        | .ndarray _ => arrayEqual r (rand.map Scalar.int)
        | _ => false)),
    rcRun A "validate_scores" [60, 75, 100] truthy,
    rcRun A "compute_performance_summary" [70, 80, 90]
      (fun r => match r with
        | .tuple rs => roundPairs 1 (rs.zip [.int 240, .float (dec 800 1), .int 90])
        | _ => .ok false),
    rcRun A "apply_bonus" [84, 90, 95]
      (fun r => match asNumList r with
        | none => .error "TypeError"
        | some xs => allClose (xs.map (pyRound 1)) rcApplyExpected),
    rcRun A "categorize_employees" [91, 85, 60]
      (fun r => .ok (arrayEqual r [.str "Excellent", .str "Good", .str "Needs Improvement"])),
    rcRun A "format_scores_with_grades" [91, 85, 73, 60]
      (fun r => .ok (arrayEqual r [.str "A", .str "B", .str "C", .str "D"]))
  ] : List (Option (String × String)))).filterMap id

/-- One visible test case of the battery. -/
structure TestCase where
  desc : String
  func : String
  input : List Int
  expected : PyVal
deriving DecidableEq, Repr

/-- Visible case 1 of `visible_tests` (the input is a Python list; all
other cases pass numpy arrays — both are integer vectors here). -/
def tc1 : TestCase :=
  ⟨"Create Step Array", "create_performance_array", [85, 90, 78, 92, 88],
    .ndarray [.int 85, .int 90, .int 78, .int 92, .int 88]⟩

/-- Visible case 2 of `visible_tests`. -/
def tc2 : TestCase :=
  ⟨"Validate Step Data - Invalid", "validate_scores", [85, 90, -5, 110],
    .scalar (.bool false)⟩

/-- Visible case 3 of `visible_tests`. -/
def tc3 : TestCase :=
  ⟨"Compute Performance Summary", "compute_performance_summary", [85, 90, 78, 92, 88],
    .tuple [.int 433, .float (dec 866 1), .int 92]⟩

/-- Visible case 4 of `visible_tests`. -/
def tc4 : TestCase :=
  ⟨"Apply Bonus to High Scores", "apply_bonus", [85, 90, 78, 92, 88],
    .ndarray [.float (dec 850 1), .float (dec 945 1), .float (dec 780 1), .float (dec 966 1),
      .float (dec 924 1)]⟩

/-- Visible case 5 of `visible_tests`. -/
def tc5 : TestCase :=
  ⟨"Categorize Employees", "categorize_employees", [85, 90, 78, 92, 88],
    .ndarray [.str "Good", .str "Excellent", .str "Needs Improvement", .str "Excellent", .str "Good"]⟩

/-- Visible case 6 of `visible_tests`. -/
def tc6 : TestCase :=
  ⟨"Format Score Grades", "format_scores_with_grades", [90, 80, 65],
    .ndarray [.str "A", .str "B", .str "D"]⟩

/-- The six visible test cases, copied from `visible_tests` in
`test_student_code`. -/
def visible_tests : List TestCase := [tc1, tc2, tc3, tc4, tc5, tc6]

/-- `✅ Test Case {i} Passed ({func}): {desc}` -/
def passMsg (i : Nat) (c : TestCase) : String :=
  "✅ Test Case " ++ toString i ++ " Passed (" ++ c.func ++ "): " ++ c.desc

/-- `❌ Test Case {i} Failed ({func}): {desc} | Reason: {reason}` -/
def failMsg (i : Nat) (c : TestCase) (reason : String) : String :=
  "❌ Test Case " ++ toString i ++ " Failed (" ++ c.func ++ "): " ++ c.desc ++ " | Reason: " ++ reason

/-- `❌ Test Case {i} Crashed ({func}): {desc} | Error: {err}` — note the
crashed line uses `| Error:`, not `| Reason:`. -/
def crashMsg (i : Nat) (c : TestCase) (err : String) : String :=
  "❌ Test Case " ++ toString i ++ " Crashed (" ++ c.func ++ "): " ++ c.desc ++ " | Error: " ++ err

/-- `str(AttributeError)` raised by `getattr(inst, func)` for a missing
operation. -/
def attrErr (name : String) : String :=
  "\x27EmployeePerformanceAnalyzer\x27 object has no attribute \x27" ++ name ++ "\x27"

/--
The visible-case equality check of `test_student_code`:
* expected numpy array → `np.array_equal(result, expected)` (never raises);
* expected tuple → `all(round(a, 2) == round(b, 2) for a, b in zip(result,
  expected))`; `zip` truncates, a non-iterable result raises `TypeError`
  (a string result iterates into characters, whose `round` then raises —
  both routes end in the same exception branch, modelled as one error);
* otherwise → `result == expected`, whose use in `if passed:` raises for a
  multi-element array result (ambiguous truth value).
-/
def checkEq (result : PyVal) (expected : PyVal) : Except String Bool :=
  match expected with
  | .ndarray es => .ok (arrayEqual result es)
  | .tuple es =>
    match elemsOf result with
    | some rs => roundPairs 2 (rs.zip es)
    | none => .error "TypeError: zip argument must support iteration"
  | _ =>
    match result, expected with
    | .ndarray (_ :: _ :: _), _ => .error "ValueError: truth value of an array is ambiguous"
    | .ndarray [x], .scalar e => .ok (scalarEq x e)
    | .ndarray _, _ => .ok false
    | .scalar r, .scalar e => .ok (scalarEq r e)
    | .list a, .list b => .ok (a.length == b.length && (a.zip b).all (fun p => scalarEq p.1 p.2))
    | .dict a, .dict b => .ok (a == b)
    | _, _ => .ok false

/-- Outcome of one iteration of the main test loop: the console/report line
and whether the submission's operation was invoked on the visible input. -/
structure CaseOut where
  msg : String
  invoked : Bool
deriving DecidableEq, Repr

/--
One iteration of the main loop of `test_student_code` for case number `i`
(1-based): fetch the method and its source (a missing operation makes
`getattr` raise, caught by the `except` as Crashed); then, in order, the
trivial-stub check (`"pass" in src and len(src.strip()) < 100`), the
hardcode detector, the randomized FailureSet; only when all three are clean
is the operation invoked on the visible input and its result compared.
Exceptions from the invocation or the comparison are caught as Crashed.
-/
def runCase (A : Submission) (fails : List (String × String)) (i : Nat) (c : TestCase) : CaseOut :=
  match A.ops c.func with
  | none => ⟨crashMsg i c (attrErr c.func), false⟩
  | some f =>
    if pyIn "pass" (A.src c.func) && (pyStrip (A.src c.func)).length < 100 then
      ⟨failMsg i c "Function contains only \x27pass\x27", false⟩
    else if detect_hardcoded (A.src c.func) c.expected then
      ⟨failMsg i c "Hardcoded return detected", false⟩
    else
      match List.lookup c.func fails with
      | some r => ⟨failMsg i c r, false⟩
      | none =>
        match f c.input with
        | .error e => ⟨crashMsg i c e, true⟩
        | .ok result =>
          match checkEq result c.expected with
          | .error e => ⟨crashMsg i c e, true⟩
          | .ok true => ⟨passMsg i c, true⟩
          | .ok false => ⟨failMsg i c "Incorrect output", true⟩

/-- The main loop, numbering cases from `i`. -/
def runCases (A : Submission) (fails : List (String × String)) : Nat → List TestCase → List String
  | _, [] => []
  | i, c :: t => (runCase A fails i c).msg :: runCases A fails (i + 1) t

/-- The report header line (the source prepends a newline to the first
report line). -/
def headerLine (ts : String) : String :=
  "\n=== Test Run at " ++ ts ++ " ==="

/--
`test_student_code` after a successful load, as a function of the loaded
submission, the random draw of the pre-flight check, and the timestamp:
run `run_randomized_checks` once, then the six visible cases in order,
producing the report lines (header first).
-/
def test_student_code (A : Submission) (rand : List Int) (ts : String) : List String :=
  headerLine ts :: runCases A (run_randomized_checks A rand) 1 visible_tests

/--
The whole of `test_student_code` including the load phase (lines 102–107 of
the driver).  The load — `spec_from_file_location` / `exec_module` /
`EmployeePerformanceAnalyzer()` — is NOT inside any `try/except`: a missing
file, a syntax error or a missing class raises out of `test_student_code`
(and out of `__main__`), so a load failure propagates as `.error` and no
report lines are produced.
-/
def load_and_test (load : Except String Submission) (rand : List Int) (ts : String) :
    Except String (List String) :=
  match load with
  | .error e => .error e
  | .ok A => .ok (test_student_code A rand ts)

/-- The report sink: the driver opens `report.txt` with mode `"a"` and
appends `"\n".join(report_lines) + "\n"`. -/
def writeReport (file : String) (lines : List String) : String :=
  file ++ String.intercalate "\n" lines ++ "\n"

/-! ### Test fixtures: concrete submissions used by witnesses and
counterexamples (these model student code fed to the harness, not code of
the repository). -/

/-- A correct `create_performance_array`: the input list as a numpy array. -/
def refCreate (l : List Int) : Except String PyVal :=
  .ok (.ndarray (l.map Scalar.int))

/-- A correct `validate_scores`: true iff every element is in `[0, 100]`. -/
def refValidate (l : List Int) : Except String PyVal :=
  .ok (.scalar (.bool (l.all (fun x => decide (0 ≤ x) && decide (x ≤ 100)))))

/-- A correct `compute_performance_summary`: `(sum, mean, max)`. -/
def refCompute (l : List Int) : Except String PyVal :=
  .ok (.tuple [.int l.sum, .float (rDiv (intToRat l.sum) (intToRat l.length)),
               .int (l.foldl max 0)])

/-- A correct `apply_bonus`: elements above 85 gain 5 %, clipped at 100,
everything rounded to one decimal. -/
def refApply (l : List Int) : Except String PyVal :=
  .ok (.ndarray (l.map (fun a =>
    .float (pyRound 1 (rMin (if 85 < a then rMul (intToRat a) (dec 105 2) else intToRat a)
      (intToRat 100))))))

/-- A `categorize_employees` agreeing with both the visible battery and the
randomized check of the driver (the driver's visible case maps 78 to
"Needs Improvement", so the boundary consistent with it is 80, not 70). -/
def refCategorize (l : List Int) : Except String PyVal :=
  .ok (.ndarray (l.map (fun a =>
    .str (if 90 ≤ a then "Excellent" else if 80 ≤ a then "Good" else "Needs Improvement"))))

/-- A correct `format_scores_with_grades`. -/
def refFormat (l : List Int) : Except String PyVal :=
  .ok (.ndarray (l.map (fun a =>
    .str (if 90 ≤ a then "A" else if 80 ≤ a then "B" else if 70 ≤ a then "C" else "D"))))

/-- An innocuous source text for an operation: no `pass`, no literal from
any expected value. -/
def refSrc (name : String) : String :=
  "def " ++ name ++ "(self, data):\n    return engine(data)"

/-- A fully correct reference submission. -/
def refSub : Submission where
  ops := fun name =>
    if name = "create_performance_array" then some refCreate
    else if name = "validate_scores" then some refValidate
    else if name = "compute_performance_summary" then some refCompute
    else if name = "apply_bonus" then some refApply
    else if name = "categorize_employees" then some refCategorize
    else if name = "format_scores_with_grades" then some refFormat
    else none
  src := refSrc

/-- A fixed admissible draw for the randomized `create_performance_array`
input (six values in `[60, 100]`). -/
def randA : List Int := [60, 60, 60, 60, 60, 60]

/-- A second admissible draw, different from `randA`. -/
def randB : List Int := [61, 61, 61, 61, 61, 61]

/-- Source of a `validate_scores` that unconditionally returns `True`. -/
def srcTrueV : String := "def validate_scores(self, scores):\n    return True"

/-- A submission whose `validate_scores` body unconditionally executes
`return True`; all other operations are the reference ones. -/
def subTrueV : Submission where
  ops := fun n => if n = "validate_scores" then some (fun _ => .ok (.scalar (.bool true)))
                  else refSub.ops n
  src := fun n => if n = "validate_scores" then srcTrueV else refSrc n

/-- A submission defining none of the six operations. -/
def subAbsent : Submission where
  ops := fun _ => none
  src := refSrc

/-- A submission whose `compute_performance_summary` returns a 2-tuple
`(sum, mean)` — wrong arity, but the elements it does return are correct. -/
def subShortTuple : Submission where
  ops := fun n => if n = "compute_performance_summary" then
      some (fun l => .ok (.tuple [.int l.sum, .float (rDiv (intToRat l.sum) (intToRat l.length))]))
    else refSub.ops n
  src := refSrc

/-- A hardcoding `create_performance_array` source (no `pass` anywhere). -/
def hardSrc : String :=
  "def create_performance_array(self, data):\n    return [85, 90, 78, 92, 88]"

/-- A hardcoding `create_performance_array` source that also contains the
substring `pass` (inside a comment) and is under 100 characters. -/
def hardSrcPass : String :=
  "def create_performance_array(self,p):#pass\n return [85, 90, 78, 92, 88]"

/-- A submission whose `create_performance_array` has the given source text
(its runtime behavior is the correct one; the source is what the scanners
see). -/
def subWithCreateSrc (s : String) : Submission where
  ops := refSub.ops
  src := fun n => if n = "create_performance_array" then s else refSrc n

/-- A `compute_performance_summary` submission returning the given triple
on the visible input while behaving correctly on the randomized input. -/
def subVisTriple (t : List Scalar) : Submission where
  ops := fun n => if n = "compute_performance_summary" then
      some (fun l => .ok (if l = [70, 80, 90] then .tuple [.int 240, .float (dec 800 1), .int 90]
                          else .tuple t))
    else refSub.ops n
  src := refSrc

/-- A submission whose `create_performance_array` raises (message `boom`)
exactly on the visible input and is correct elsewhere. -/
def subBoom : Submission where
  ops := fun n => if n = "create_performance_array" then
      some (fun l => if l = [85, 90, 78, 92, 88] then .error "boom" else refCreate l)
    else refSub.ops n
  src := refSrc

/-- A deterministic submission whose `create_performance_array` is correct
exactly on the draw `randA` and wrong on every other input. -/
def subRandSensitive : Submission where
  ops := fun n => if n = "create_performance_array" then
      some (fun l => .ok (.ndarray ((if l = randA then l else []).map Scalar.int)))
    else refSub.ops n
  src := refSrc

/-- A genuine short implementation whose identifier `passed` contains the
substring `pass`. -/
def srcC9 : String :=
  "def validate_scores(self, s):\n    passed = min(s) >= 0\n    return passed"

/-- A submission implementing `validate_scores` correctly with the short
source `srcC9`. -/
def subC9 : Submission where
  ops := fun n => if n = "validate_scores" then some refValidate else refSub.ops n
  src := fun n => if n = "validate_scores" then srcC9 else refSrc n

/-- An ASCII uppercase letter occurs in the string. -/
def hasUpper (s : String) : Prop :=
  ∃ c ∈ s.data, 65 ≤ c.toNat ∧ c.toNat ≤ 90

/-! ### Structural lemmas about one iteration of the main loop -/

/-- A missing operation makes `getattr` raise before any check: Crashed,
never invoked. -/
theorem runCase_op_missing (A : Submission) (fails : List (String × String))
    (i : Nat) (c : TestCase) (h : A.ops c.func = none) :
    runCase A fails i c = ⟨crashMsg i c (attrErr c.func), false⟩ := by
  simp only [runCase, h]

/-- When the stub check fires, the case is Failed with the stub reason and
the operation is not invoked. -/
theorem runCase_stub (A : Submission) (fails : List (String × String))
    (i : Nat) (c : TestCase) (f : List Int → Except String PyVal)
    (hop : A.ops c.func = some f)
    (hcond : (pyIn "pass" (A.src c.func) &&
      decide ((pyStrip (A.src c.func)).length < 100)) = true) :
    runCase A fails i c = ⟨failMsg i c "Function contains only \x27pass\x27", false⟩ := by
  simp only [runCase, hop]
  rw [if_pos hcond]

/-- When the stub check is clean and the detector fires, the case is Failed
with the hardcode reason and the operation is not invoked. -/
theorem runCase_hardcoded (A : Submission) (fails : List (String × String))
    (i : Nat) (c : TestCase) (f : List Int → Except String PyVal)
    (hop : A.ops c.func = some f)
    (hcond : (pyIn "pass" (A.src c.func) &&
      decide ((pyStrip (A.src c.func)).length < 100)) = false)
    (hdet : detect_hardcoded (A.src c.func) c.expected = true) :
    runCase A fails i c = ⟨failMsg i c "Hardcoded return detected", false⟩ := by
  simp only [runCase, hop]
  rw [if_neg (by simp [hcond]), if_pos hdet]

/-- When the textual checks are clean and the operation's name is in the
FailureSet, the case is Failed with the recorded reason and the operation
is not invoked. -/
theorem runCase_failset (A : Submission) (fails : List (String × String))
    (i : Nat) (c : TestCase) (f : List Int → Except String PyVal) (r : String)
    (hop : A.ops c.func = some f)
    (hcond : (pyIn "pass" (A.src c.func) &&
      decide ((pyStrip (A.src c.func)).length < 100)) = false)
    (hdet : detect_hardcoded (A.src c.func) c.expected = false)
    (hlk : List.lookup c.func fails = some r) :
    runCase A fails i c = ⟨failMsg i c r, false⟩ := by
  simp only [runCase, hop]
  rw [if_neg (by simp [hcond]), if_neg (by simp [hdet]), hlk]

/-- When every check is clean and the invocation raises, the case is
Crashed with the exception text and the operation was invoked. -/
theorem runCase_exec_error (A : Submission) (fails : List (String × String))
    (i : Nat) (c : TestCase) (f : List Int → Except String PyVal) (e : String)
    (hop : A.ops c.func = some f)
    (hcond : (pyIn "pass" (A.src c.func) &&
      decide ((pyStrip (A.src c.func)).length < 100)) = false)
    (hdet : detect_hardcoded (A.src c.func) c.expected = false)
    (hlk : List.lookup c.func fails = none)
    (hraise : f c.input = .error e) :
    runCase A fails i c = ⟨crashMsg i c e, true⟩ := by
  simp only [runCase, hop]
  rw [if_neg (by simp [hcond]), if_neg (by simp [hdet]), hlk, hraise]

/-- When every check is clean and the invocation returns a value, the case
is Passed or Failed("Incorrect output") according to the comparison. -/
theorem runCase_exec_ok (A : Submission) (fails : List (String × String))
    (i : Nat) (c : TestCase) (f : List Int → Except String PyVal)
    (res : PyVal) (b : Bool)
    (hop : A.ops c.func = some f)
    (hcond : (pyIn "pass" (A.src c.func) &&
      decide ((pyStrip (A.src c.func)).length < 100)) = false)
    (hdet : detect_hardcoded (A.src c.func) c.expected = false)
    (hlk : List.lookup c.func fails = none)
    (hres : f c.input = .ok res)
    (hchk : checkEq res c.expected = .ok b) :
    runCase A fails i c =
      ⟨if b then passMsg i c else failMsg i c "Incorrect output", true⟩ := by
  simp only [runCase, hop]
  rw [if_neg (by simp [hcond]), if_neg (by simp [hdet]), hlk, hres]
  simp only [hchk]
  cases b <;> rfl

/-! ### Lemmas about substring occurrence and normalization -/

/-- The main loop produces one line per test case. -/
theorem runCases_length (A : Submission) (fails : List (String × String)) :
    ∀ (i : Nat) (l : List TestCase), (runCases A fails i l).length = l.length := by
  intro i l
  induction l generalizing i with
  | nil => rfl
  | cons c t ih => simp [runCases, ih]

/-- A full run always produces exactly seven report lines: the header and
one line per visible case. -/
theorem test_student_code_length (A : Submission) (rand : List Int) (ts : String) :
    (test_student_code A rand ts).length = 7 := by
  simp [test_student_code, runCases_length, visible_tests]

/-- `begMatch pat s` holds exactly when `s` extends `pat`. -/
theorem begMatch_ex (pat : List Char) : ∀ s : List Char,
    begMatch pat s = true ↔ ∃ post, s = pat ++ post := by
  induction pat with
  | nil =>
    intro s
    simp [begMatch]
  | cons a as ih =>
    intro s
    cases s with
    | nil =>
      simp [begMatch]
    | cons b bs =>
      simp only [begMatch, Bool.and_eq_true, beq_iff_eq, ih, List.cons_append, List.cons.injEq]
      constructor
      · rintro ⟨hab, post, hpost⟩
        exact ⟨post, hab.symm, hpost⟩
      · rintro ⟨post, hab, hpost⟩
        exact ⟨hab.symm, post, hpost⟩

/-- `occursIn pat s` holds exactly when `s` contains `pat` contiguously. -/
theorem occursIn_ex (pat : List Char) : ∀ s : List Char,
    occursIn pat s = true ↔ ∃ pre post, s = pre ++ pat ++ post := by
  intro s
  induction s with
  | nil =>
    simp only [occursIn, List.isEmpty_iff]
    constructor
    · intro h
      exact ⟨[], [], by simp [h]⟩
    · rintro ⟨pre, post, h⟩
      rcases List.append_eq_nil.mp (List.append_eq_nil.mp h.symm).1 with ⟨_, h2⟩
      exact h2
  | cons c t ih =>
    simp only [occursIn, Bool.or_eq_true, begMatch_ex, ih]
    constructor
    · rintro (⟨post, h⟩ | ⟨pre, post, h⟩)
      · exact ⟨[], post, by simp [h]⟩
      · exact ⟨c :: pre, post, by simp [h]⟩
    · rintro ⟨pre, post, h⟩
      cases pre with
      | nil =>
        exact Or.inl ⟨post, by simpa using h⟩
      | cons d ds =>
        simp only [List.cons_append, List.cons.injEq] at h
        exact Or.inr ⟨ds, post, h.2⟩

/-- Substring occurrence is transitive. -/
theorem occursIn_trans {p q s : List Char}
    (h1 : occursIn p q = true) (h2 : occursIn q s = true) : occursIn p s = true := by
  rw [occursIn_ex] at h1 h2 ⊢
  obtain ⟨a, b, hq⟩ := h1
  obtain ⟨u, v, hs⟩ := h2
  exact ⟨u ++ a, b ++ v, by simp [hs, hq]⟩

/-- Normalization preserves substring occurrence: if the raw source
contains `pat`, the normalized source contains the normalized `pat`. -/
theorem occursIn_normChars {pat s : List Char} (h : occursIn pat s = true) :
    occursIn (normChars pat) (normChars s) = true := by
  rw [occursIn_ex] at h ⊢
  obtain ⟨pre, post, hs⟩ := h
  refine ⟨normChars pre, normChars post, ?_⟩
  simp [hs, normChars, List.filter_append]

/-- Every character of an occurring pattern is a character of the string. -/
theorem occursIn_mem {pat s : List Char} (h : occursIn pat s = true) :
    ∀ c ∈ pat, c ∈ s := by
  rw [occursIn_ex] at h
  obtain ⟨pre, post, hs⟩ := h
  intro c hc
  simp [hs, hc]

/-- ASCII lower-casing never yields an ASCII uppercase letter. -/
theorem lowerAscii_not_upper (c : Char) :
    ¬(65 ≤ (lowerAscii c).toNat ∧ (lowerAscii c).toNat ≤ 90) := by
  unfold lowerAscii
  split
  · next h =>
    obtain ⟨h1, h2⟩ := h
    set m := c.toNat with hm
    interval_cases m <;> decide
  · next h =>
    intro hc
    exact h hc

/-- The normalized source contains no ASCII uppercase letter. -/
theorem normChars_not_upper {l : List Char} {c : Char} (hc : c ∈ normChars l) :
    ¬(65 ≤ c.toNat ∧ c.toNat ≤ 90) := by
  simp only [normChars, List.mem_map] at hc
  obtain ⟨d, _, hd⟩ := hc
  rw [← hd]
  exact lowerAscii_not_upper d

/-- A pattern containing an ASCII uppercase letter never occurs in a
normalized source. -/
theorem pyIn_norm_upper_false {pat : String} (s : String)
    (h : ∃ c ∈ pat.data, 65 ≤ c.toNat ∧ c.toNat ≤ 90) :
    pyIn pat (normalizeSrc s) = false := by
  obtain ⟨c, hc, hupper⟩ := h
  by_contra hcontra
  rw [Bool.not_eq_false] at hcontra
  have hmem := occursIn_mem hcontra c hc
  exact normChars_not_upper hmem hupper

/-! ### Claim C1 -/

/--
C1, counterexample: the constant-`True` `validate_scores` submission does
evade the scalar hardcode check (the pattern `returnfalse` does not occur
in its normalized source), but — contrary to the claim — the Randomized
Property Checker does NOT record `validate_scores` in the FailureSet: the
randomized input `[60, 75, 100]` is entirely in range, so the reference
result there is `True` and agrees with the static return.
-/
theorem C1_counterexample :
    detect_hardcoded srcTrueV (.scalar (.bool false)) = false ∧
    List.lookup "validate_scores" (run_randomized_checks subTrueV randA) = none := by
  constructor
  · decide
  · rfl

/--
C1, amended: a submission whose `validate_scores` body unconditionally
executes `return True`, with visible expected value `False`, evades the
scalar hardcode check and is not recorded in the FailureSet (its static
return agrees with the reference on the randomized input `[60, 75, 100]`);
it is nonetheless caught, but by the visible-case comparison itself, which
records the case Failed with reason `Incorrect output` after invoking the
operation.
-/
theorem C1_constant_true_caught_by_visible_case :
    detect_hardcoded srcTrueV (.scalar (.bool false)) = false ∧
    List.lookup "validate_scores" (run_randomized_checks subTrueV randA) = none ∧
    runCase subTrueV (run_randomized_checks subTrueV randA) 2 tc2 =
      ⟨failMsg 2 tc2 "Incorrect output", true⟩ := by
  refine ⟨by decide, rfl, by decide⟩

/-! ### Claim C2 -/

/--
C2, counterexample: a load failure (here a syntax error) is NOT caught:
lines 102–107 of the driver are outside any `try/except`, so
`test_student_code` propagates the exception; no report — in particular no
single fatal entry — is produced.
-/
theorem C2_counterexample :
    load_and_test (.error "SyntaxError: invalid syntax") randA "TS" =
      .error "SyntaxError: invalid syntax" ∧
    (load_and_test (.error "SyntaxError: invalid syntax") randA "TS").toOption = none := by
  exact ⟨rfl, rfl⟩

/--
C2, amended: if loading the submission fails (missing file, syntax error,
or missing `EmployeePerformanceAnalyzer` class), the run aborts without
producing per-case entries, but the error is NOT caught and NOT reported
in-band: the exception propagates out of `test_student_code` and no report
lines are written.  Only when the load succeeds does the run complete,
always producing the header plus six per-case entries.
-/
theorem C2_load_error_propagates :
    (∀ (e : String) (rand : List Int) (ts : String),
        load_and_test (.error e) rand ts = .error e) ∧
    (∀ (A : Submission) (rand : List Int) (ts : String),
        load_and_test (.ok A) rand ts = .ok (test_student_code A rand ts) ∧
        (test_student_code A rand ts).length = 7) := by
  exact ⟨fun _ _ _ => rfl, fun A rand ts => ⟨rfl, test_student_code_length A rand ts⟩⟩

/-! ### Claim C3 -/

/--
C3, counterexample: a `compute_performance_summary` returning a 2-tuple
`(sum, mean)` — wrong arity — is recorded Passed, not Crashed, on its
visible case: `zip` truncates the comparison to the two returned
components, both of which are correct (`433` and `86.6`), and the same
truncation lets it pass the randomized check.
-/
theorem C3_counterexample :
    runCase subShortTuple (run_randomized_checks subShortTuple randA) 3 tc3 =
      ⟨passMsg 3 tc3, true⟩ := by
  decide

/--
C3, amended: for every visible test case, an absent submission operation
produces a Crashed outcome for that case (the `AttributeError` from
`getattr` is caught by the per-case handler), never a fatal harness error;
but a wrong-arity return is not generally Crashed: a
`compute_performance_summary` returning a 2-tuple whose components match
the expected prefix is recorded Passed (the tuple comparison `zip`
truncates to the shorter side).
-/
theorem C3_absent_crashes_but_short_tuple_passes :
    (∀ (A : Submission) (fails : List (String × String)) (i : Nat) (c : TestCase),
        c ∈ visible_tests → A.ops c.func = none →
        runCase A fails i c = ⟨crashMsg i c (attrErr c.func), false⟩) ∧
    runCase subShortTuple (run_randomized_checks subShortTuple randA) 3 tc3 =
      ⟨passMsg 3 tc3, true⟩ := by
  constructor
  · intro A fails i c _ habs
    unfold runCase
    rw [habs]
  · decide

/-- Witness for C3 (amended): the all-absent submission yields a Crashed
entry on visible case 2. -/
theorem C3_absent_crashes_witness :
    runCase subAbsent [] 2 tc2 = ⟨crashMsg 2 tc2 (attrErr "validate_scores"), false⟩ :=
  C3_absent_crashes_but_short_tuple_passes.1 subAbsent [] 2 tc2 (by decide) rfl

/-! ### Claim C4 -/

/--
C4, counterexample: when the operation is absent, its name IS present in
the FailureSet (the randomized check recorded `Exception occurred`), yet
the visible case is recorded Crashed, not Failed with that reason: the
`getattr` in the loop body raises before the FailureSet is consulted.
-/
theorem C4_counterexample :
    List.lookup "validate_scores" (run_randomized_checks subAbsent randA) =
      some "Exception occurred" ∧
    runCase subAbsent (run_randomized_checks subAbsent randA) 2 tc2 =
      ⟨crashMsg 2 tc2 (attrErr "validate_scores"), false⟩ ∧
    (runCase subAbsent (run_randomized_checks subAbsent randA) 2 tc2).msg ≠
      failMsg 2 tc2 "Exception occurred" := by
  refine ⟨rfl, by decide, by decide⟩

/--
C4, amended: for every visible case whose operation is retrievable
(`getattr` succeeds), if the stub check or the Hardcode Detector flags the
case, or the operation's name is present in the FailureSet, the entry is
recorded Failed with the corresponding reason — the stub reason, then the
hardcode reason, then the FailureSet reason, in that precedence — and the
submission's operation is never invoked on that case's visible input.
(When the operation is absent the entry is instead Crashed, even if its
name is in the FailureSet.)
-/
theorem C4_flags_block_execution (A : Submission) (fails : List (String × String))
    (i : Nat) (c : TestCase) (f : List Int → Except String PyVal)
    (_hc : c ∈ visible_tests)
    (hop : A.ops c.func = some f)
    (hflag : (pyIn "pass" (A.src c.func) = true ∧ (pyStrip (A.src c.func)).length < 100) ∨
             detect_hardcoded (A.src c.func) c.expected = true ∨
             (∃ r, List.lookup c.func fails = some r)) :
    (runCase A fails i c).invoked = false ∧
    ∃ reason, runCase A fails i c = ⟨failMsg i c reason, false⟩ ∧
      (reason = "Function contains only \x27pass\x27" ∨
       reason = "Hardcoded return detected" ∨
       List.lookup c.func fails = some reason) := by
  by_cases hstub : (pyIn "pass" (A.src c.func) &&
      decide ((pyStrip (A.src c.func)).length < 100)) = true
  · rw [runCase_stub A fails i c f hop hstub]
    exact ⟨rfl, _, rfl, Or.inl rfl⟩
  · rw [Bool.not_eq_true] at hstub
    by_cases hdet : detect_hardcoded (A.src c.func) c.expected = true
    · rw [runCase_hardcoded A fails i c f hop hstub hdet]
      exact ⟨rfl, _, rfl, Or.inr (Or.inl rfl)⟩
    · rw [Bool.not_eq_true] at hdet
      rcases hflag with ⟨h1, h2⟩ | h | ⟨r, hr⟩
      · rw [h1, decide_eq_true h2] at hstub
        exact absurd hstub (by simp)
      · rw [h] at hdet
        exact absurd hdet (by simp)
      · rw [runCase_failset A fails i c f r hop hstub hdet hr]
        exact ⟨rfl, r, rfl, Or.inr (Or.inr hr)⟩

/-- Witness for C4 (amended): the hardcoding submission's visible case 1 is
Failed with the hardcode reason and its operation is not invoked. -/
theorem C4_flags_block_execution_witness :
    (runCase (subWithCreateSrc hardSrc) [] 1 tc1).invoked = false ∧
    ∃ reason, runCase (subWithCreateSrc hardSrc) [] 1 tc1 = ⟨failMsg 1 tc1 reason, false⟩ ∧
      (reason = "Function contains only \x27pass\x27" ∨
       reason = "Hardcoded return detected" ∨
       List.lookup "create_performance_array" ([] : List (String × String)) = some reason) :=
  C4_flags_block_execution (subWithCreateSrc hardSrc) [] 1 tc1 refCreate
    (by decide) rfl (Or.inr (Or.inl (by decide)))

/-! ### Claim C5 -/

/--
C5, counterexample: a submission whose `compute_performance_summary`
returns `(433, 86.64, 92)` on the visible input — equal to the expected
`(433, 86.6, 92)` up to rounding at 1 decimal place — is recorded Failed
with `Incorrect output`, not Passed: the visible comparison rounds both
sides at 2 decimals, where `86.64 ≠ 86.6`.
-/
theorem C5_counterexample :
    pyRound 1 (dec 8664 2) = pyRound 1 (dec 866 1) ∧
    runCase (subVisTriple [.int 433, .float (dec 8664 2), .int 92])
        (run_randomized_checks (subVisTriple [.int 433, .float (dec 8664 2), .int 92]) randA)
        3 tc3 =
      ⟨failMsg 3 tc3 "Incorrect output", true⟩ := by
  refine ⟨by decide, by decide⟩

/--
C5, amended: in the visible case for `compute_performance_summary` (all
pre-execution checks clean), a submission result `(a, b, c)` is recorded
Passed exactly when each component equals the corresponding component of
`(433, 86.6, 92)` after rounding at 2 decimal places — not 1: a result
agreeing at 1 decimal but differing at 2 decimals is recorded Failed.
-/
theorem C5_two_decimal_comparison (A : Submission) (fails : List (String × String))
    (f : List Int → Except String PyVal) (qa qb qc : Rat)
    (hop : A.ops tc3.func = some f)
    (hcond : (pyIn "pass" (A.src tc3.func) &&
      decide ((pyStrip (A.src tc3.func)).length < 100)) = false)
    (hdet : detect_hardcoded (A.src tc3.func) tc3.expected = false)
    (hlk : List.lookup tc3.func fails = none)
    (hres : f tc3.input = .ok (.tuple [.float qa, .float qb, .float qc])) :
    runCase A fails 3 tc3 = ⟨passMsg 3 tc3, true⟩ ↔
      (pyRound 2 qa = intToRat 433 ∧ pyRound 2 qb = dec 866 1 ∧
       pyRound 2 qc = intToRat 92) := by
  have e1 : pyRound 2 (intToRat 433) = intToRat 433 := by decide
  have e2 : pyRound 2 (dec 866 1) = dec 866 1 := by decide
  have e3 : pyRound 2 (intToRat 92) = intToRat 92 := by decide
  have base : ∀ b : Bool,
      checkEq (.tuple [.float qa, .float qb, .float qc]) tc3.expected = .ok b →
      (runCase A fails 3 tc3 =
        ⟨if b then passMsg 3 tc3 else failMsg 3 tc3 "Incorrect output", true⟩) :=
    fun b hchk => runCase_exec_ok A fails 3 tc3 f _ b hop hcond hdet hlk hres hchk
  by_cases h1 : pyRound 2 qa = intToRat 433
  · by_cases h2 : pyRound 2 qb = dec 866 1
    · by_cases h3 : pyRound 2 qc = intToRat 92
      · rw [base true (by simp [tc3, checkEq, elemsOf, roundPairs, asRat, e1, e2, e3, h1, h2, h3])]
        simp [h1, h2, h3]
      · rw [base false (by simp [tc3, checkEq, elemsOf, roundPairs, asRat, e1, e2, e3, h1, h2, h3])]
        constructor
        · intro hEq
          exact absurd (congrArg CaseOut.msg hEq) (by decide)
        · rintro ⟨_, _, hq3⟩
          exact absurd hq3 h3
    · rw [base false (by simp [tc3, checkEq, elemsOf, roundPairs, asRat, e1, e2, h1, h2])]
      constructor
      · intro hEq
        exact absurd (congrArg CaseOut.msg hEq) (by decide)
      · rintro ⟨_, hq2, _⟩
        exact absurd hq2 h2
  · rw [base false (by simp [tc3, checkEq, elemsOf, roundPairs, asRat, e1, h1])]
    constructor
    · intro hEq
      exact absurd (congrArg CaseOut.msg hEq) (by decide)
    · rintro ⟨hq1, _, _⟩
      exact absurd hq1 h1

/-- Witness for C5 (amended): a submission returning exactly
`(433.0, 86.6, 92.0)` on the visible input (and the correct triple on the
randomized input) is recorded Passed. -/
theorem C5_two_decimal_comparison_witness :
    runCase (subVisTriple [.float (intToRat 433), .float (dec 866 1), .float (intToRat 92)])
        (run_randomized_checks
          (subVisTriple [.float (intToRat 433), .float (dec 866 1), .float (intToRat 92)]) randA)
        3 tc3 =
      ⟨passMsg 3 tc3, true⟩ :=
  (C5_two_decimal_comparison _ _ _ (intToRat 433) (dec 866 1) (intToRat 92)
    rfl (by decide) (by decide) (by decide) rfl).mpr
    ⟨by decide, by decide, by decide⟩

/-! ### Claim C6 -/

/--
C6, counterexample: a `create_performance_array` source containing the
literal `return [85, 90, 78, 92, 88]` AND the substring `pass` (here in a
comment) with stripped length under 100 is recorded Failed with the stub
reason `Function contains only pass`, not with
`Hardcoded return detected`: the stub check runs first.
-/
theorem C6_counterexample :
    pyIn "return [85, 90, 78, 92, 88]" hardSrcPass = true ∧
    runCase (subWithCreateSrc hardSrcPass)
        (run_randomized_checks (subWithCreateSrc hardSrcPass) randA) 1 tc1 =
      ⟨failMsg 1 tc1 "Function contains only \x27pass\x27", false⟩ ∧
    failMsg 1 tc1 "Function contains only \x27pass\x27" ≠
      failMsg 1 tc1 "Hardcoded return detected" := by
  refine ⟨by decide, by decide, by decide⟩

/--
C6, amended: a submission whose `create_performance_array` source contains
the literal `return [85, 90, 78, 92, 88]` is recorded Failed for visible
case 1 with reason `Hardcoded return detected` (every element's string
form appears in the normalized source), regardless of its runtime output —
provided the trivial-stub check does not fire first (source containing
`pass` with stripped length under 100), in which case the reason is the
stub reason instead.
-/
theorem C6_literal_is_flagged (A : Submission) (fails : List (String × String))
    (i : Nat) (f : List Int → Except String PyVal)
    (hop : A.ops tc1.func = some f)
    (hlit : pyIn "return [85, 90, 78, 92, 88]" (A.src tc1.func) = true)
    (hstub : (pyIn "pass" (A.src tc1.func) &&
      decide ((pyStrip (A.src tc1.func)).length < 100)) = false) :
    runCase A fails i tc1 = ⟨failMsg i tc1 "Hardcoded return detected", false⟩ := by
  apply runCase_hardcoded A fails i tc1 f hop hstub
  have hnorm := occursIn_normChars hlit
  apply List.all_eq_true.mpr
  intro v hv
  fin_cases hv
  · exact occursIn_trans (p := (scalarStr (.int 85)).data) (by decide) hnorm
  · exact occursIn_trans (p := (scalarStr (.int 90)).data) (by decide) hnorm
  · exact occursIn_trans (p := (scalarStr (.int 78)).data) (by decide) hnorm
  · exact occursIn_trans (p := (scalarStr (.int 92)).data) (by decide) hnorm
  · exact occursIn_trans (p := (scalarStr (.int 88)).data) (by decide) hnorm

/-- Witness for C6 (amended): the plain hardcoding source (no `pass`) is
Failed with the hardcode reason even though its runtime output is correct. -/
theorem C6_literal_is_flagged_witness :
    runCase (subWithCreateSrc hardSrc)
        (run_randomized_checks (subWithCreateSrc hardSrc) randA) 1 tc1 =
      ⟨failMsg 1 tc1 "Hardcoded return detected", false⟩ :=
  C6_literal_is_flagged (subWithCreateSrc hardSrc) _ 1 refCreate
    rfl (by decide) (by decide)

/-! ### Claim C7 -/

/--
C7, counterexample: an operation raising `boom` on the visible input yields
a Crashed line whose exception text follows the separator `| Error:`, NOT
the claimed `| Reason:` — the crashed-line format differs from the
Failed-line format — while the run still completes with all seven lines.
-/
theorem C7_counterexample :
    (test_student_code subBoom randA "TS").get? 1 = some (crashMsg 1 tc1 "boom") ∧
    crashMsg 1 tc1 "boom" =
      "❌ Test Case 1 Crashed (create_performance_array): Create Step Array | Error: boom" ∧
    pyIn "| Reason:" (crashMsg 1 tc1 "boom") = false ∧
    pyIn "boom" (crashMsg 1 tc1 "boom") = true ∧
    (test_student_code subBoom randA "TS").length = 7 := by
  refine ⟨by decide, rfl, by decide, by decide, by decide⟩

/--
C7, amended: if a submission operation raises on the visible input (with
the pre-execution checks clean), that case is recorded Crashed with the
exception's text in the line
`<marker> Test Case <ordinal> Crashed (<operation>): <description> | Error: <text>`
(note `| Error:`, not the `| Reason:` separator used by Failed lines); the
exception does not propagate and the run completes, producing the header
and all six case lines.
-/
theorem C7_exception_crashes_entry (A : Submission) (fails : List (String × String))
    (i : Nat) (c : TestCase) (e : String) (f : List Int → Except String PyVal)
    (_hc : c ∈ visible_tests)
    (hop : A.ops c.func = some f)
    (hcond : (pyIn "pass" (A.src c.func) &&
      decide ((pyStrip (A.src c.func)).length < 100)) = false)
    (hdet : detect_hardcoded (A.src c.func) c.expected = false)
    (hlk : List.lookup c.func fails = none)
    (hraise : f c.input = .error e) :
    runCase A fails i c = ⟨crashMsg i c e, true⟩ ∧
    crashMsg i c e = "❌ Test Case " ++ toString i ++ " Crashed (" ++ c.func ++ "): " ++
      c.desc ++ " | Error: " ++ e ∧
    ∀ (rand : List Int) (ts : String), (test_student_code A rand ts).length = 7 :=
  ⟨runCase_exec_error A fails i c f e hop hcond hdet hlk hraise, rfl,
   fun rand ts => test_student_code_length A rand ts⟩

/-- Witness for C7 (amended): `subBoom` raising on visible case 1. -/
theorem C7_exception_crashes_entry_witness :
    runCase subBoom (run_randomized_checks subBoom randA) 1 tc1 =
      ⟨crashMsg 1 tc1 "boom", true⟩ ∧
    (test_student_code subBoom randB "TS").length = 7 :=
  ⟨(C7_exception_crashes_entry subBoom (run_randomized_checks subBoom randA) 1 tc1 "boom" _
      (by decide) rfl (by decide) (by decide) (by decide) rfl).1,
   (C7_exception_crashes_entry subBoom (run_randomized_checks subBoom randA) 1 tc1 "boom" _
      (by decide) rfl (by decide) (by decide) (by decide) rfl).2.2 randB "TS"⟩

/-! ### Claim C8 -/

/--
C8, counterexample: two runs of the harness on the same unchanged
submission, with the SAME timestamp but different draws of the randomized
input, produce report blocks with identical headers whose bodies differ —
so two runs' blocks are not, in general, identical modulo the timestamp
header: the randomized pre-flight input is freshly sampled each run and a
submission's failure set may depend on it.
-/
theorem C8_counterexample :
    (test_student_code subRandSensitive randA "TS").head? =
      (test_student_code subRandSensitive randB "TS").head? ∧
    (test_student_code subRandSensitive randA "TS").tail ≠
      (test_student_code subRandSensitive randB "TS").tail := by
  refine ⟨rfl, by decide⟩

/--
C8, amended: two runs on the same submission with the same randomized draw
append report blocks identical except the timestamp header (the body is a
function of the submission and the draw only); and the sink is only ever
appended to — a write yields the prior file contents followed by the new
block, so two consecutive runs leave the first block intact before the
second.  With different randomized draws, the bodies may differ (see the
counterexample).
-/
theorem C8_append_only_reports :
    (∀ (A : Submission) (rand : List Int) (ts1 ts2 : String),
        (test_student_code A rand ts1).tail = (test_student_code A rand ts2).tail) ∧
    (∀ (file : String) (lines : List String),
        writeReport file lines = file ++ (String.intercalate "\n" lines ++ "\n")) ∧
    (∀ (file : String) (b1 b2 : List String),
        writeReport (writeReport file b1) b2 =
          file ++ (String.intercalate "\n" b1 ++ "\n") ++
            (String.intercalate "\n" b2 ++ "\n")) := by
  refine ⟨fun A rand ts1 ts2 => rfl, fun file lines => ?_, fun file b1 b2 => ?_⟩
  · exact String.append_assoc file _ _
  · simp [writeReport, String.append_assoc]

/-! ### Claim C9 -/

/--
C9: for every visible case, if the operation's retrieved source text
contains the four-character substring `pass` anywhere — including inside a
longer identifier such as `passed` — and the stripped source is shorter
than 100 characters, the case is recorded Failed with reason
`Function contains only pass` and the operation is not executed, even
when the implementation is a genuine short computation.
-/
theorem C9_stub_substring_blocks (A : Submission) (fails : List (String × String))
    (i : Nat) (c : TestCase) (f : List Int → Except String PyVal)
    (_hc : c ∈ visible_tests)
    (hop : A.ops c.func = some f)
    (hpass : pyIn "pass" (A.src c.func) = true)
    (hlen : (pyStrip (A.src c.func)).length < 100) :
    runCase A fails i c = ⟨failMsg i c "Function contains only \x27pass\x27", false⟩ := by
  unfold runCase
  rw [hop]
  simp [hpass, hlen]

/-- Witness for C9: the genuine `validate_scores` of `subC9` is blocked by
the stub check on visible case 2 and never invoked. -/
theorem C9_stub_substring_blocks_witness :
    runCase subC9 [] 2 tc2 =
      ⟨failMsg 2 tc2 "Function contains only \x27pass\x27", false⟩ :=
  C9_stub_substring_blocks subC9 [] 2 tc2 refValidate
    (by simp [visible_tests]) (by rfl) (by decide) (by decide)

/-! ### Claim C10 -/

/--
C10: `detect_hardcoded` returns `False` whenever the expected output is an
array, list or tuple containing an element whose string form includes an
(ASCII) uppercase character, because the source is lower-cased before the
substring test while element strings are not; consequently the visible
cases for `categorize_employees` (elements such as `Excellent`) and
`format_scores_with_grades` (elements such as `A`) can never be flagged as
hardcoded, for any source text.
-/
theorem C10_uppercase_evades_detector (src : String) (vs : List Scalar)
    (h : ∃ v ∈ vs, hasUpper (scalarStr v)) :
    detect_hardcoded src (.ndarray vs) = false ∧
    detect_hardcoded src (.list vs) = false ∧
    detect_hardcoded src (.tuple vs) = false ∧
    detect_hardcoded src tc5.expected = false ∧
    detect_hardcoded src tc6.expected = false := by
  have key : ∀ ws : List Scalar, (∃ v ∈ ws, hasUpper (scalarStr v)) →
      ws.all (fun v => pyIn (scalarStr v) (normalizeSrc src)) = false := by
    intro ws ⟨v, hv, hup⟩
    by_contra hall
    rw [Bool.not_eq_false, List.all_eq_true] at hall
    have := hall v hv
    rw [pyIn_norm_upper_false src hup] at this
    exact Bool.false_ne_true this
  refine ⟨key vs h, key vs h, key vs h, ?_, ?_⟩
  · exact key _ ⟨.str "Good", by decide, 'G', by decide, by decide⟩
  · exact key _ ⟨.str "A", by decide, 'A', by decide, by decide⟩

/-- Witness for C10: no source text — not even one containing the literal
`Excellent` — makes the visible `categorize_employees` expectation look
hardcoded. -/
theorem C10_uppercase_evades_detector_witness :
    detect_hardcoded "return Excellent" (.ndarray [.str "Excellent"]) = false ∧
    detect_hardcoded "return Excellent" tc5.expected = false :=
  ⟨(C10_uppercase_evades_detector "return Excellent" [.str "Excellent"]
      ⟨.str "Excellent", by decide, 'E', by decide, by decide⟩).1,
   (C10_uppercase_evades_detector "return Excellent" [.str "Excellent"]
      ⟨.str "Excellent", by decide, 'E', by decide, by decide⟩).2.2.2.1⟩

end Driver
